import Mathlib

/-!
Verification of the notex RAG core (backend/server.go, backend/store.go)
against its natural-language specification.

The Go handlers are shallowly embedded as pure Lean functions.  Calls to
external collaborators that live outside the embedded files — the storage
layer (`ListNotes`, `ListSources`, `CreateNote`, `CreateSource`), the text
generation agent (`GenerateTransformation`), the image generator
(`GenerateImage`), the slide parser (`ParsePPTSlides`) and the ingestion
pipeline (`IngestText`) — are modelled as oracle parameters: each embedded
function receives the outcome every such call would produce and the
embedding records, in the order the Go code makes them, which calls were
issued with which arguments.
-/

namespace Notex

/-- A source document of a notebook (backend `Source`, the fields the
handlers under verification read or write). -/
structure Source where
  id : String
  notebookID : String
  name : String
  type : String
  url : String
  content : String
  deriving Repr, DecidableEq

/-- Metadata bag of a Note as assembled by `handleTransform`
(server.go 765-808): the keys `length` and `format` are always present,
`image_error`, `image_url` and `slides` are set depending on the
transformation type and the image-generation outcomes. -/
structure NoteMetadata where
  length : String
  format : String
  imageError : Option String := none
  imageURL : Option String := none
  slides : Option (List String) := none
  deriving Repr, DecidableEq

/-- A persisted note (backend `Note`, the fields `handleTransform` sets). -/
structure Note where
  notebookID : String
  title : String
  content : String
  type : String
  sourceIDs : List String
  metadata : NoteMetadata
  deriving Repr, DecidableEq

/-- Transformation request body (backend `TransformationRequest`). -/
structure TransformationRequest where
  type : String
  sourceIDs : List String
  length : String
  format : String
  deriving Repr, DecidableEq

/-- The server configuration bit consumed by `handleTransform`. -/
structure Config where
  allowMultipleNotesOfSameType : Bool
  deriving Repr, DecidableEq

/-- One parsed slide of a `ppt` transformation (agent `Slide`:
a content string and a shared style descriptor). -/
structure Slide where
  content : String
  style : String
  deriving Repr, DecidableEq

/-- HTTP-level outcome of a handler, as written by `c.JSON` / `c.Status`. -/
inductive HTTPResult where
  | ok : Note → HTTPResult
  | badRequest : String → HTTPResult
  | conflict : String → HTTPResult
  | serverError : String → HTTPResult
  deriving Repr, DecidableEq

/-- Oracle environment for one `handleTransform` request: the outcome of
each external call the handler may make.  `genImage k` is the outcome of
the k-th image-generation call of the request (the calls are issued
strictly sequentially, so indexing them is faithful). -/
structure TransformEnv where
  listNotes : Except String (List Note)
  listSources : Except String (List Source)
  genText : Except String String
  genImage : Nat → Except String String
  parseSlides : String → List Slide
  createNote : Except String Unit
  createSource : Except String Unit

/-- Observable effects and result of one `handleTransform` request.
`imagePrompts` lists the prompts of the image-generation calls in the
order they are issued; `createNoteAttempts` / `createSourceAttempts` the
arguments of the `CreateNote` / `CreateSource` calls;
`insightIngestAttempts` the `(notebookID, sourceName, content)` arguments
of the `IngestText` call made for an insight source. -/
structure TransformOutcome where
  result : HTTPResult
  textGenCalled : Bool
  imagePrompts : List String
  createNoteAttempts : List Note
  createSourceAttempts : List Source
  insightIngestAttempts : List (String × String × String)
  deriving Repr

/-- Go `filepath.Base`: last element of the path after dropping trailing
slashes; "." for the empty path, "/" if the path is all slashes. -/
def filepathBase (path : String) : String :=
  if path = "" then "." else
  let trimmed := (path.toList.reverse.dropWhile (fun c => c = '/')).reverse
  if trimmed = [] then "/" else
  String.mk (trimmed.reverse.takeWhile (fun c => c ≠ '/')).reverse

/-- server.go `getTitleForType`. -/
def getTitleForType (t : String) : String :=
  if t == "summary" then "摘要"
  else if t == "faq" then "常见问题解答"
  else if t == "study_guide" then "学习指南"
  else if t == "outline" then "大纲"
  else if t == "podcast" then "播客脚本"
  else if t == "timeline" then "时间线"
  else if t == "glossary" then "术语表"
  else if t == "quiz" then "测验"
  else if t == "infograph" then "信息图"
  else if t == "ppt" then "幻灯片"
  else if t == "mindmap" then "思维导图"
  else if t == "insight" then "洞察报告"
  else "笔记"

/-- The fixed Chinese-language instruction appended to image prompts. -/
def chineseNotice : String := "**注意：无论来源是什么语言，请务必使用中文**"

/-- Prompt used for slide `s` of a ppt transformation (server.go 798-799);
`style` is the style of the first parsed slide. -/
def pptPrompt (style : String) (s : Slide) : String :=
  "Style: " ++ style ++ "\n\nSlide Content: " ++ s.content ++ "\n\n" ++ chineseNotice ++ "\n"

/-- The sequential per-slide image-generation loop (server.go 795-806):
slide i issues call number i; a failed call is skipped (`continue`), a
successful call appends its web path to the accumulated URL list.
Returns the prompts in call order and the successful URLs in slide
order. -/
def pptLoop (genImage : Nat → Except String String) (style : String) :
    List Slide → Nat → List String × List String
  | [], _ => ([], [])
  | s :: rest, i =>
    let prompt := pptPrompt style s
    let (ps, us) := pptLoop genImage style rest (i + 1)
    match genImage i with
    | .error _ => (prompt :: ps, us)
    | .ok p => (prompt :: ps, ("/api/files/" ++ filepathBase p) :: us)

/-- The infograph branch of `handleTransform` (server.go 771-783): one
image-generation call; on failure the error string is recorded under
`image_error`, on success the web path under `image_url`. -/
def infographStage (env : TransformEnv) (content : String) (md : NoteMetadata) :
    NoteMetadata × List String :=
  let prompt := content ++ "\n\n" ++ chineseNotice
  match env.genImage 0 with
  | .error e => ({ md with imageError := some e }, [prompt])
  | .ok p => ({ md with imageURL := some ("/api/files/" ++ filepathBase p) }, [prompt])

/-- The ppt branch of `handleTransform` (server.go 786-809): parse the
slides; if more than 10, skip all image generation and record the cap
error; otherwise run the sequential per-slide loop and record the
accumulated URLs under `slides`. -/
def pptStage (env : TransformEnv) (content : String) (md : NoteMetadata) :
    NoteMetadata × List String :=
  let slides := env.parseSlides content
  if slides.length > 10 then
    ({ md with imageError := some "PPT页数超过20页上限，已停止生成图片" }, [])
  else
    let (prompts, urls) := pptLoop env.genImage (slides.headD ⟨"", ""⟩).style slides 0
    ({ md with slides := some urls }, prompts)

/-- Source scoping (server.go 732-751): with a non-empty requested id
list, keep only the notebook sources whose id is requested; otherwise use
all sources and write all their ids back into the request. -/
def filterSources (req : TransformationRequest) (sources : List Source) :
    TransformationRequest × List Source :=
  if req.sourceIDs.length > 0 then
    (req, sources.filter (fun s => req.sourceIDs.contains s.id))
  else
    ({ req with sourceIDs := sources.map (fun s => s.id) }, sources)

/-- `handleTransform` from successful primary generation onwards
(server.go 765-872): assemble the metadata via the type-dependent image
stages, clear the text content for infograph, persist the note, and for
insight create and ingest a brand-new source carrying the generated
text. -/
def transformWithContent (env : TransformEnv) (req : TransformationRequest)
    (notebookID : String) (content : String) : TransformOutcome :=
  let md0 : NoteMetadata := { length := req.length, format := req.format }
  let s1 := if req.type == "infograph" then infographStage env content md0 else (md0, [])
  let s2 := if req.type == "ppt" then pptStage env content s1.1 else (s1.1, [])
  let prompts := s1.2 ++ s2.2
  let noteContent := if req.type == "infograph" then "" else content
  let note : Note :=
    { notebookID := notebookID, title := getTitleForType req.type,
      content := noteContent, type := req.type, sourceIDs := req.sourceIDs,
      metadata := s2.1 }
  match env.createNote with
  | .error _ =>
    { result := .serverError "Failed to save note", textGenCalled := true,
      imagePrompts := prompts, createNoteAttempts := [note],
      createSourceAttempts := [], insightIngestAttempts := [] }
  | .ok _ =>
    if req.type == "insight" then
      let insightSource : Source :=
        { id := "", notebookID := notebookID, name := "洞察报告",
          type := "insight", url := "", content := content }
      match env.createSource with
      | .error _ =>
        { result := .ok note, textGenCalled := true, imagePrompts := prompts,
          createNoteAttempts := [note], createSourceAttempts := [insightSource],
          insightIngestAttempts := [] }
      | .ok _ =>
        { result := .ok note, textGenCalled := true, imagePrompts := prompts,
          createNoteAttempts := [note], createSourceAttempts := [insightSource],
          insightIngestAttempts := [(notebookID, insightSource.name, content)] }
    else
      { result := .ok note, textGenCalled := true, imagePrompts := prompts,
        createNoteAttempts := [note], createSourceAttempts := [],
        insightIngestAttempts := [] }

/-- `handleTransform` after the duplicate-type check (server.go 726-763):
list and scope the sources, reject an empty source set, run primary text
generation — whose failure aborts the whole operation with a server
error and no persisted note. -/
def transformAfterDupCheck (env : TransformEnv) (req0 : TransformationRequest)
    (notebookID : String) : TransformOutcome :=
  match env.listSources with
  | .error _ =>
    { result := .serverError "Failed to get sources", textGenCalled := false,
      imagePrompts := [], createNoteAttempts := [], createSourceAttempts := [],
      insightIngestAttempts := [] }
  | .ok sources0 =>
    let fs := filterSources req0 sources0
    if fs.2.length == 0 then
      { result := .badRequest "No sources available", textGenCalled := false,
        imagePrompts := [], createNoteAttempts := [], createSourceAttempts := [],
        insightIngestAttempts := [] }
    else
      match env.genText with
      | .error e =>
        { result := .serverError ("Generation failed: " ++ e), textGenCalled := true,
          imagePrompts := [], createNoteAttempts := [], createSourceAttempts := [],
          insightIngestAttempts := [] }
      | .ok content => transformWithContent env fs.1 notebookID content

/-- server.go `handleTransform` (lines 694-873), from a successfully
bound request onwards.  The initial on-demand index load (line 700) only
logs its error and does not influence the rest of the handler, so it is
verified separately via `loadNotebookVectorIndex`.  The activity-log call
(lines 833-845) is fire-and-forget — its failure is only logged — and is
not recorded in the outcome. -/
def handleTransform (cfg : Config) (env : TransformEnv)
    (req0 : TransformationRequest) (notebookID : String) : TransformOutcome :=
  if !cfg.allowMultipleNotesOfSameType then
    match env.listNotes with
    | .error _ =>
      { result := .serverError "Failed to check existing notes", textGenCalled := false,
        imagePrompts := [], createNoteAttempts := [], createSourceAttempts := [],
        insightIngestAttempts := [] }
    | .ok notes =>
      if notes.any (fun n => n.type == req0.type) then
        { result := .conflict "该笔记本已存在相同类型的笔记，不允许创建重复类型",
          textGenCalled := false, imagePrompts := [], createNoteAttempts := [],
          createSourceAttempts := [], insightIngestAttempts := [] }
      else transformAfterDupCheck env req0 notebookID
  else transformAfterDupCheck env req0 notebookID

/-! ## Index Lifecycle Manager (server.go `loadNotebookVectorIndex`, 172-201)

The whole body of `loadNotebookVectorIndex` runs under `s.vectorMutex`
held for the duration of the call, so any set of concurrent calls is
equivalent to executing the bodies one after another in the order the
lock is acquired; a list of calls therefore models every interleaving. -/

/-- Oracle environment for one `loadNotebookVectorIndex` call:
the outcome of the `ListSources` call and of the k-th `IngestText` call
of the sweep. -/
structure LoadEnv where
  listSources : Except String (List Source)
  ingestText : Nat → Except String Nat

/-- Observable effects and result of one `loadNotebookVectorIndex` call:
the returned error (if any), the new `loadedNotebooks` state, whether
`ListSources` was called, and the `(sourceName, result)` of every
`IngestText` call in order. -/
structure LoadOutcome where
  ret : Except String Unit
  loaded : String → Bool
  listedSources : Bool
  ingestCalls : List (String × Except String Nat)

/-- The ingestion sweep (server.go 188-194): every source with non-empty
content is passed to `IngestText`; an ingestion error is only logged and
the loop continues with the remaining sources. -/
def ingestSweep (ingest : Nat → Except String Nat) :
    List Source → Nat → List (String × Except String Nat)
  | [], _ => []
  | s :: rest, k =>
    if s.content ≠ "" then (s.name, ingest k) :: ingestSweep ingest rest (k + 1)
    else ingestSweep ingest rest k

/-- server.go `loadNotebookVectorIndex` (172-201): under the lock, return
immediately if the notebook is already loaded; otherwise list its
sources, run the ingestion sweep, and mark the notebook loaded (even if
individual ingestions failed).  A `ListSources` failure returns an error
without marking the notebook loaded. -/
def loadNotebookVectorIndex (env : LoadEnv) (loadedNotebooks : String → Bool)
    (notebookID : String) : LoadOutcome :=
  if loadedNotebooks notebookID then
    { ret := .ok (), loaded := loadedNotebooks, listedSources := false, ingestCalls := [] }
  else
    match env.listSources with
    | .error e =>
      { ret := .error ("failed to list sources: " ++ e), loaded := loadedNotebooks,
        listedSources := true, ingestCalls := [] }
    | .ok sources =>
      { ret := .ok (),
        loaded := fun id => if id = notebookID then true else loadedNotebooks id,
        listedSources := true,
        ingestCalls := ingestSweep env.ingestText sources 0 }

/-- An ingestion sweep is performed by a call exactly when the notebook
was not yet loaded and `ListSources` succeeded (the loop at server.go
188-194 is reached). -/
def didSweep (env : LoadEnv) (loadedNotebooks : String → Bool)
    (notebookID : String) : Bool :=
  !loadedNotebooks notebookID && (env.listSources matches .ok _)

/-- Number of ingestion sweeps performed by a sequence of
`loadNotebookVectorIndex` calls for `notebookID` (each call with its own
oracle environment), executed in lock order from the given state. -/
def countSweeps (envs : List LoadEnv) (loadedNotebooks : String → Bool)
    (notebookID : String) : Nat :=
  match envs with
  | [] => 0
  | e :: rest =>
    (if didSweep e loadedNotebooks notebookID then 1 else 0) +
      countSweeps rest (loadNotebookVectorIndex e loadedNotebooks notebookID).loaded notebookID

/-! ## Source deletion (server.go `handleDeleteSource`, 470-493;
store.go `DeleteSource`, 522-525) and the vector index -/

/-- One stored chunk of the vector index, tagged with the notebook id and
source name it was ingested under. -/
structure VectorDoc where
  notebookID : String
  sourceName : String
  chunk : String
  deriving Repr, DecidableEq

/-- The state `handleDeleteSource` can touch: the sources table and the
vector index contents. -/
structure SystemState where
  sources : List Source
  vectorDocs : List VectorDoc
  deriving Repr, DecidableEq

/-- store.go `DeleteSource` (522-525): a single SQL `DELETE FROM sources
WHERE id = ?`; nothing else is touched. -/
def DeleteSource (sources : List Source) (id : String) : List Source :=
  sources.filter (fun s => s.id ≠ id)

/-- Outcome of `handleDeleteSource`: HTTP-level status and the new
system state. -/
inductive DeleteResult where
  | noContent
  | notFound
  | forbidden
  deriving Repr, DecidableEq

/-- server.go `handleDeleteSource` (470-493): look the source up, check
notebook access (the check's outcome is the oracle `accessOk`), then call
`store.DeleteSource`.  The handler never touches the vector store or the
loaded-notebooks map, so `vectorDocs` is returned unchanged. -/
def handleDeleteSource (st : SystemState) (sourceID : String) (accessOk : Bool) :
    DeleteResult × SystemState :=
  match st.sources.find? (fun s => s.id = sourceID) with
  | none => (.notFound, st)
  | some _ =>
    if !accessOk then (.forbidden, st)
    else (.noContent, { st with sources := DeleteSource st.sources sourceID })

/-- The chunks of source `sourceName` retrievable in notebook
`notebookID`'s index namespace: every stored chunk is tagged with
`(notebookID, sourceName)` and retrieval is restricted to the querying
notebook's namespace. -/
def retrievableChunks (st : SystemState) (notebookID sourceName : String) :
    List VectorDoc :=
  st.vectorDocs.filter (fun d => d.notebookID == notebookID && d.sourceName == sourceName)

/-! ## Helper lemmas -/

/-- The duplicate-type validation step (server.go 711-723) lets the
request through: either the deployment allows multiple notes of the same
type, or listing the notebook's notes succeeds and none has the requested
type. -/
def dupCheckPasses (cfg : Config) (env : TransformEnv) (req : TransformationRequest) : Prop :=
  cfg.allowMultipleNotesOfSameType = true ∨
    ∃ notes, env.listNotes = .ok notes ∧ notes.all (fun n => n.type != req.type) = true

lemma handleTransform_of_dupCheckPasses (cfg : Config) (env : TransformEnv)
    (req : TransformationRequest) (nb : String) (h : dupCheckPasses cfg env req) :
    handleTransform cfg env req nb = transformAfterDupCheck env req nb := by
  unfold handleTransform
  rcases h with h | ⟨notes, hln, hall⟩
  · rw [h]; rfl
  · cases hb : cfg.allowMultipleNotesOfSameType
    · have hany : notes.any (fun n => n.type == req.type) = false := by
        rw [List.any_eq_false]
        intro n hn
        have := List.all_eq_true.mp hall n hn
        simpa [bne] using this
      simp [hb, hln, hany]
    · simp [hb]

lemma filterSources_type (req : TransformationRequest) (ss : List Source) :
    (filterSources req ss).1.type = req.type := by
  unfold filterSources
  by_cases h : req.sourceIDs.length > 0 <;> simp [h]

lemma transformAfterDupCheck_reduce (env : TransformEnv) (req : TransformationRequest)
    (nb : String) (ss : List Source) (content : String)
    (hsrc : env.listSources = .ok ss)
    (hne : (filterSources req ss).2.length ≠ 0)
    (hgen : env.genText = .ok content) :
    transformAfterDupCheck env req nb =
      transformWithContent env (filterSources req ss).1 nb content := by
  unfold transformAfterDupCheck
  rw [hsrc]
  simp [hne, hgen]

/-! ## Claim theorems -/

/-- **C2.** When the deployment disallows multiple notes of the same type
and the notebook already contains a note of the requested type, the
transformation returns a conflict error, calls neither text nor image
generation, and creates no Note and no Source. -/
theorem duplicate_type_returns_conflict (cfg : Config) (env : TransformEnv)
    (req : TransformationRequest) (nb : String) (notes : List Note) (n : Note)
    (hallow : cfg.allowMultipleNotesOfSameType = false)
    (hln : env.listNotes = .ok notes) (hn : n ∈ notes) (ht : n.type = req.type) :
    (handleTransform cfg env req nb).result =
        .conflict "该笔记本已存在相同类型的笔记，不允许创建重复类型" ∧
      (handleTransform cfg env req nb).textGenCalled = false ∧
      (handleTransform cfg env req nb).imagePrompts = [] ∧
      (handleTransform cfg env req nb).createNoteAttempts = [] ∧
      (handleTransform cfg env req nb).createSourceAttempts = [] := by
  have hany : notes.any (fun m => m.type == req.type) = true :=
    List.any_eq_true.mpr ⟨n, hn, by simp [ht]⟩
  unfold handleTransform
  simp [hallow, hln, hany]

/-- **C3.** If the primary text generation call is reached and fails, the
whole transformation aborts: the error is surfaced as a server error, no
image generation happens, and no CreateNote (and no CreateSource) call
occurs. -/
theorem primary_generation_failure_aborts (cfg : Config) (env : TransformEnv)
    (req : TransformationRequest) (nb : String) (ss : List Source) (e : String)
    (hdup : dupCheckPasses cfg env req)
    (hsrc : env.listSources = .ok ss)
    (hne : (filterSources req ss).2.length ≠ 0)
    (hgen : env.genText = .error e) :
    (handleTransform cfg env req nb).result = .serverError ("Generation failed: " ++ e) ∧
      (handleTransform cfg env req nb).textGenCalled = true ∧
      (handleTransform cfg env req nb).imagePrompts = [] ∧
      (handleTransform cfg env req nb).createNoteAttempts = [] ∧
      (handleTransform cfg env req nb).createSourceAttempts = [] := by
  rw [handleTransform_of_dupCheckPasses cfg env req nb hdup]
  unfold transformAfterDupCheck
  rw [hsrc]
  simp only [hne, hgen, if_neg hne, Nat.beq_eq_true_eq]
  exact ⟨rfl, rfl, rfl, rfl, rfl⟩

/-- **C4.** An infograph transformation whose primary generation succeeds
but whose image generation fails still reports success: the note is
persisted, the image-generation error string is recorded under
`metadata.image_error`, and the note's text content is empty. -/
theorem infograph_image_failure_still_succeeds (cfg : Config) (env : TransformEnv)
    (req : TransformationRequest) (nb : String) (ss : List Source)
    (content e : String)
    (hdup : dupCheckPasses cfg env req)
    (hsrc : env.listSources = .ok ss)
    (hne : (filterSources req ss).2.length ≠ 0)
    (ht : req.type = "infograph")
    (hgen : env.genText = .ok content)
    (himg : env.genImage 0 = .error e)
    (hcn : env.createNote = .ok ()) :
    ∃ note, (handleTransform cfg env req nb).result = .ok note ∧
      (handleTransform cfg env req nb).createNoteAttempts = [note] ∧
      note.metadata.imageError = some e ∧
      note.content = "" := by
  rw [handleTransform_of_dupCheckPasses cfg env req nb hdup,
    transformAfterDupCheck_reduce env req nb ss content hsrc hne hgen]
  have ht' : (filterSources req ss).1.type = "infograph" :=
    (filterSources_type req ss).trans ht
  unfold transformWithContent
  simp only [ht', infographStage, himg, hcn]
  exact ⟨_, rfl, rfl, rfl, rfl⟩

/-- **C10.** An infograph transformation that persists a Note always
clears the Note's text content — also when image generation succeeds.
On success `metadata.image_url` carries the web path of the generated
image (and no `image_error` is set); on failure `metadata.image_error`
carries the error (and no `image_url` is set).  The generated text is
never stored in the Note. -/
theorem infograph_content_always_cleared (cfg : Config) (env : TransformEnv)
    (req : TransformationRequest) (nb : String) (ss : List Source) (content : String)
    (hdup : dupCheckPasses cfg env req)
    (hsrc : env.listSources = .ok ss)
    (hne : (filterSources req ss).2.length ≠ 0)
    (ht : req.type = "infograph")
    (hgen : env.genText = .ok content)
    (hcn : env.createNote = .ok ()) :
    ∃ note, (handleTransform cfg env req nb).result = .ok note ∧
      (handleTransform cfg env req nb).createNoteAttempts = [note] ∧
      note.content = "" ∧
      (∀ p, env.genImage 0 = .ok p →
        note.metadata.imageURL = some ("/api/files/" ++ filepathBase p) ∧
          note.metadata.imageError = none) ∧
      (∀ e, env.genImage 0 = .error e →
        note.metadata.imageError = some e ∧ note.metadata.imageURL = none) := by
  rw [handleTransform_of_dupCheckPasses cfg env req nb hdup,
    transformAfterDupCheck_reduce env req nb ss content hsrc hne hgen]
  have ht' : (filterSources req ss).1.type = "infograph" :=
    (filterSources_type req ss).trans ht
  unfold transformWithContent
  cases himg : env.genImage 0 with
  | error e =>
    simp only [ht', infographStage, himg, hcn]
    refine ⟨_, rfl, rfl, rfl, ?_, ?_⟩
    · intro p hp
      exact Except.noConfusion hp
    · intro e' he'
      injection he' with h
      subst h
      exact ⟨rfl, rfl⟩
  | ok p =>
    simp only [ht', infographStage, himg, hcn]
    refine ⟨_, rfl, rfl, rfl, ?_, ?_⟩
    · intro p' hp'
      injection hp' with h
      subst h
      exact ⟨rfl, rfl⟩
    · intro e he
      exact Except.noConfusion he

/-- The web path under which a generated image file is served
(server.go 780 and 805). -/
def slideURL (p : String) : String := "/api/files/" ++ filepathBase p

/-- The slide URLs a sequential sweep of image-generation calls
accumulates: for each slide index `k` in order, the k-th call's web path
if it succeeded, nothing if it failed. -/
def successfulSlideURLs (g : Nat → Except String String) (n : Nat) : List String :=
  (List.range n).filterMap (fun k => (g k).toOption.map slideURL)

lemma pptLoop_spec (g : Nat → Except String String) (style : String) :
    ∀ (slides : List Slide) (i : Nat),
      pptLoop g style slides i =
        (slides.map (pptPrompt style),
          (List.range slides.length).filterMap
            (fun k => (g (i + k)).toOption.map slideURL)) := by
  intro slides
  induction slides with
  | nil => intro i; simp [pptLoop]
  | cons s rest ih =>
    intro i
    have hfun : ((fun k => (g (i + k)).toOption.map slideURL) ∘ Nat.succ)
        = (fun k => (g (i + 1 + k)).toOption.map slideURL) := by
      funext k
      have hik : i + Nat.succ k = i + 1 + k := by omega
      simp only [Function.comp_apply]
      rw [hik]
    rw [pptLoop, ih (i + 1)]
    rw [List.length_cons, List.range_succ_eq_map, List.filterMap_cons, List.filterMap_map, hfun]
    cases hg : g i with
    | error e => simp [hg, Except.toOption]
    | ok p => simp [hg, Except.toOption, slideURL]

lemma pptStage_cap {env : TransformEnv} {content : String} {md : NoteMetadata}
    (hcap : (env.parseSlides content).length > 10) :
    pptStage env content md =
      ({ md with imageError := some "PPT页数超过20页上限，已停止生成图片" }, []) := by
  unfold pptStage
  rw [if_pos hcap]

lemma pptStage_within {env : TransformEnv} {content : String} {md : NoteMetadata}
    (hcap : ¬ (env.parseSlides content).length > 10) :
    pptStage env content md =
      ({ md with
          slides := some (successfulSlideURLs env.genImage (env.parseSlides content).length) },
        (env.parseSlides content).map
          (pptPrompt ((env.parseSlides content).headD ⟨"", ""⟩).style)) := by
  unfold pptStage
  rw [if_neg hcap, pptLoop_spec]
  simp [successfulSlideURLs]

/-- **C5.** A ppt transformation whose primary text parses into more than
10 slides performs zero image-generation calls, records the cap-exceeded
error under `metadata.image_error` (no `slides` key is written), and the
note with the generated text content is still persisted. -/
theorem ppt_slide_cap_skips_images (cfg : Config) (env : TransformEnv)
    (req : TransformationRequest) (nb : String) (ss : List Source) (content : String)
    (hdup : dupCheckPasses cfg env req)
    (hsrc : env.listSources = .ok ss)
    (hne : (filterSources req ss).2.length ≠ 0)
    (ht : req.type = "ppt")
    (hgen : env.genText = .ok content)
    (hcap : (env.parseSlides content).length > 10)
    (hcn : env.createNote = .ok ()) :
    ∃ note, (handleTransform cfg env req nb).result = .ok note ∧
      (handleTransform cfg env req nb).createNoteAttempts = [note] ∧
      (handleTransform cfg env req nb).imagePrompts = [] ∧
      note.metadata.imageError = some "PPT页数超过20页上限，已停止生成图片" ∧
      note.metadata.slides = none ∧
      note.content = content := by
  rw [handleTransform_of_dupCheckPasses cfg env req nb hdup,
    transformAfterDupCheck_reduce env req nb ss content hsrc hne hgen]
  have ht' : (filterSources req ss).1.type = "ppt" :=
    (filterSources_type req ss).trans ht
  unfold transformWithContent
  simp only [ht', pptStage_cap hcap, hcn]
  exact ⟨_, rfl, rfl, rfl, rfl, rfl, rfl⟩

/-- **C6.** A ppt transformation within the slide cap issues exactly one
image-generation call per parsed slide, sequentially in slide order (the
i-th call carries the i-th slide's content, with the first slide's style);
a slide whose call fails is silently dropped — nothing is recorded in the
note's metadata for the failure — and `metadata.slides` holds exactly the
web paths of the successful slides in their original slide order. -/
theorem ppt_sequential_images_drop_failures (cfg : Config) (env : TransformEnv)
    (req : TransformationRequest) (nb : String) (ss : List Source) (content : String)
    (hdup : dupCheckPasses cfg env req)
    (hsrc : env.listSources = .ok ss)
    (hne : (filterSources req ss).2.length ≠ 0)
    (ht : req.type = "ppt")
    (hgen : env.genText = .ok content)
    (hcap : ¬ (env.parseSlides content).length > 10)
    (hcn : env.createNote = .ok ()) :
    ∃ note, (handleTransform cfg env req nb).result = .ok note ∧
      (handleTransform cfg env req nb).createNoteAttempts = [note] ∧
      (handleTransform cfg env req nb).imagePrompts =
        (env.parseSlides content).map
          (pptPrompt ((env.parseSlides content).headD ⟨"", ""⟩).style) ∧
      note.metadata.slides =
        some (successfulSlideURLs env.genImage (env.parseSlides content).length) ∧
      note.metadata.imageError = none ∧
      note.content = content := by
  rw [handleTransform_of_dupCheckPasses cfg env req nb hdup,
    transformAfterDupCheck_reduce env req nb ss content hsrc hne hgen]
  have ht' : (filterSources req ss).1.type = "ppt" :=
    (filterSources_type req ss).trans ht
  unfold transformWithContent
  simp only [ht', pptStage_within hcap, hcn]
  exact ⟨_, rfl, rfl, rfl, rfl, rfl, rfl⟩

/-- **C9.** A successful insight transformation persists the generated
primary text as exactly one brand-new Source of the same notebook (name
"洞察报告", type "insight", content the generated text) and issues one
ingestion call for it against the notebook's index — so every successful
run adds one more source to the notebook: the operation is not
idempotent. -/
theorem insight_creates_and_ingests_new_source (cfg : Config) (env : TransformEnv)
    (req : TransformationRequest) (nb : String) (ss : List Source) (content : String)
    (hdup : dupCheckPasses cfg env req)
    (hsrc : env.listSources = .ok ss)
    (hne : (filterSources req ss).2.length ≠ 0)
    (ht : req.type = "insight")
    (hgen : env.genText = .ok content)
    (hcn : env.createNote = .ok ())
    (hcs : env.createSource = .ok ()) :
    ∃ note, (handleTransform cfg env req nb).result = .ok note ∧
      note.content = content ∧
      (handleTransform cfg env req nb).createSourceAttempts =
        [{ id := "", notebookID := nb, name := "洞察报告", type := "insight",
           url := "", content := content }] ∧
      (handleTransform cfg env req nb).insightIngestAttempts =
        [(nb, "洞察报告", content)] ∧
      (handleTransform cfg env req nb).createSourceAttempts.length = 1 := by
  rw [handleTransform_of_dupCheckPasses cfg env req nb hdup,
    transformAfterDupCheck_reduce env req nb ss content hsrc hne hgen]
  have ht' : (filterSources req ss).1.type = "insight" :=
    (filterSources_type req ss).trans ht
  unfold transformWithContent
  simp only [ht', hcn, hcs]
  exact ⟨_, rfl, rfl, rfl, rfl, rfl⟩

/-- Auxiliary: the ingestion sweep attempts exactly the sources with
non-empty content, in order, regardless of the per-call ingestion
outcomes. -/
lemma ingestSweep_names (ingest : Nat → Except String Nat) :
    ∀ (sources : List Source) (k : Nat),
      (ingestSweep ingest sources k).map Prod.fst =
        (sources.filter (fun s => s.content ≠ "")).map (fun s => s.name) := by
  intro sources
  induction sources with
  | nil => intro k; simp [ingestSweep]
  | cons s rest ih =>
    intro k
    by_cases h : s.content ≠ ""
    · rw [ingestSweep, if_pos h]
      simp [h, ih (k + 1)]
    · rw [ingestSweep, if_neg h]
      simp only [ne_eq, not_not] at h
      simp [h, ih k]

/-- Auxiliary: a call never un-loads a notebook, and after a sweep the
notebook is loaded. -/
lemma loadNotebookVectorIndex_loaded_monotone (env : LoadEnv)
    (st : String → Bool) (nb : String) :
    (loadNotebookVectorIndex env st nb).loaded nb =
      (st nb || didSweep env st nb) := by
  unfold loadNotebookVectorIndex didSweep
  by_cases h : st nb
  · simp [h]
  · cases hls : env.listSources <;> simp [h, hls]

/-- Auxiliary: once a notebook is loaded, no later call in a sequence
performs a sweep. -/
lemma countSweeps_of_loaded (envs : List LoadEnv) :
    ∀ (st : String → Bool) (nb : String), st nb = true →
      countSweeps envs st nb = 0 := by
  induction envs with
  | nil => intro st nb _; rfl
  | cons e rest ih =>
    intro st nb h
    rw [countSweeps]
    have hd : didSweep e st nb = false := by unfold didSweep; simp [h]
    have hl : (loadNotebookVectorIndex e st nb).loaded nb = true := by
      rw [loadNotebookVectorIndex_loaded_monotone, h, Bool.true_or]
    rw [hd, ih _ nb hl]
    simp

/-- **C1.** The per-notebook index load is lazy and exactly-once per
process lifetime.  (i) A first call for a not-yet-loaded notebook whose
`ListSources` succeeds lists the sources, passes every source with
non-empty content to ingestion, marks the notebook loaded and returns no
error.  (ii) Any call for an already-loaded notebook returns no error
immediately, without listing sources or ingesting anything, and leaves
the state unchanged.  (iii) Over any sequence of calls for the same
notebook — which models every concurrent schedule, since the whole body
runs under the shared mutex — at most one ingestion sweep is performed. -/
theorem index_load_lazy_exactly_once :
    (∀ (env : LoadEnv) (st : String → Bool) (nb : String) (ss : List Source),
      st nb = false → env.listSources = .ok ss →
        (loadNotebookVectorIndex env st nb).ret = .ok () ∧
        (loadNotebookVectorIndex env st nb).listedSources = true ∧
        (loadNotebookVectorIndex env st nb).loaded nb = true ∧
        (loadNotebookVectorIndex env st nb).ingestCalls.map Prod.fst =
          (ss.filter (fun s => s.content ≠ "")).map (fun s => s.name)) ∧
    (∀ (env : LoadEnv) (st : String → Bool) (nb : String), st nb = true →
        (loadNotebookVectorIndex env st nb).ret = .ok () ∧
        (loadNotebookVectorIndex env st nb).listedSources = false ∧
        (loadNotebookVectorIndex env st nb).ingestCalls = [] ∧
        (loadNotebookVectorIndex env st nb).loaded = st) ∧
    (∀ (envs : List LoadEnv) (st : String → Bool) (nb : String),
        countSweeps envs st nb ≤ 1) := by
  refine ⟨?_, ?_, ?_⟩
  · intro env st nb ss hnl hls
    unfold loadNotebookVectorIndex
    rw [hnl, hls]
    simp [ingestSweep_names]
  · intro env st nb h
    unfold loadNotebookVectorIndex
    rw [h]
    exact ⟨rfl, rfl, rfl, rfl⟩
  · intro envs
    induction envs with
    | nil => intro st nb; simp [countSweeps]
    | cons e rest ih =>
      intro st nb
      rw [countSweeps]
      cases hd : didSweep e st nb
      · simpa using ih _ nb
      · have hl : (loadNotebookVectorIndex e st nb).loaded nb = true := by
          rw [loadNotebookVectorIndex_loaded_monotone, hd, Bool.or_true]
        rw [countSweeps_of_loaded rest _ nb hl]
        simp [hd]

/-- **C7.** An individual ingestion failure during the index load sweep
neither aborts the sweep nor surfaces an error: for a not-yet-loaded
notebook whose `ListSources` succeeds, the call returns no error, every
source with non-empty content is still passed to ingestion, and the
notebook is marked loaded — and the returned error, the loaded state and
the set of attempted sources are identical for any two ingestion oracles
(in particular, for one that fails on some document and one that does
not), so a transient ingestion failure leaves the notebook marked loaded
over an incomplete index. -/
theorem ingest_failure_not_surfaced (env₁ env₂ : LoadEnv) (st : String → Bool)
    (nb : String) (ss : List Source)
    (h₁ : env₁.listSources = .ok ss) (h₂ : env₂.listSources = .ok ss)
    (hnl : st nb = false) :
    (loadNotebookVectorIndex env₁ st nb).ret = .ok () ∧
      (loadNotebookVectorIndex env₁ st nb).loaded nb = true ∧
      (loadNotebookVectorIndex env₁ st nb).ingestCalls.map Prod.fst =
        (ss.filter (fun s => s.content ≠ "")).map (fun s => s.name) ∧
      (loadNotebookVectorIndex env₁ st nb).ret = (loadNotebookVectorIndex env₂ st nb).ret ∧
      (loadNotebookVectorIndex env₁ st nb).loaded =
        (loadNotebookVectorIndex env₂ st nb).loaded ∧
      (loadNotebookVectorIndex env₁ st nb).ingestCalls.map Prod.fst =
        (loadNotebookVectorIndex env₂ st nb).ingestCalls.map Prod.fst := by
  unfold loadNotebookVectorIndex
  rw [hnl, h₁, h₂]
  simp [ingestSweep_names]

/-! ## C8: source deletion and the vector index -/

/-- A concrete one-source system state for exercising source deletion:
the source's content has been ingested as one chunk of the notebook's
index namespace. -/
def c8Source : Source :=
  { id := "s1", notebookID := "nb1", name := "doc1", type := "text",
    url := "", content := "hello world" }

def c8Doc : VectorDoc :=
  { notebookID := "nb1", sourceName := "doc1", chunk := "hello world" }

def c8State : SystemState := { sources := [c8Source], vectorDocs := [c8Doc] }

/-- **C8 (counterexample).** Deleting source "s1" succeeds and removes
the Source record, yet its chunk is still retrievable in the notebook's
index namespace afterwards: the claim that the delete-source operation
removes the deleted Source's chunks from the vector index is false. -/
theorem delete_source_chunk_survives_counterexample :
    (handleDeleteSource c8State "s1" true).1 = .noContent ∧
      (handleDeleteSource c8State "s1" true).2.sources = [] ∧
      retrievableChunks (handleDeleteSource c8State "s1" true).2 "nb1" "doc1" =
        [c8Doc] := by
  decide

/-- **C8 (amended).** The delete-source operation only deletes the
Source's database record (store.go 522-525); it never touches the vector
index, so the deleted Source's chunks all remain retrievable in the
notebook's index namespace — the invariant "a Chunk never outlives its
Source" is not maintained by the code. -/
theorem delete_source_leaves_index_untouched (st : SystemState)
    (sourceID : String) (accessOk : Bool) :
    (handleDeleteSource st sourceID accessOk).2.vectorDocs = st.vectorDocs ∧
      (∀ nb name, retrievableChunks (handleDeleteSource st sourceID accessOk).2 nb name =
        retrievableChunks st nb name) ∧
      ((handleDeleteSource st sourceID accessOk).1 = .noContent →
        (handleDeleteSource st sourceID accessOk).2.sources =
          DeleteSource st.sources sourceID) := by
  unfold handleDeleteSource
  cases hf : st.sources.find? (fun s => s.id = sourceID) with
  | none => exact ⟨rfl, fun nb name => rfl, fun h => DeleteResult.noConfusion h⟩
  | some s =>
    cases accessOk with
    | false => exact ⟨rfl, fun nb name => rfl, fun h => DeleteResult.noConfusion h⟩
    | true => exact ⟨rfl, fun nb name => rfl, fun h => rfl⟩

theorem delete_source_leaves_index_untouched_witness :
    (handleDeleteSource c8State "s1" true).2.vectorDocs = c8State.vectorDocs ∧
      (∀ nb name, retrievableChunks (handleDeleteSource c8State "s1" true).2 nb name =
        retrievableChunks c8State nb name) ∧
      ((handleDeleteSource c8State "s1" true).1 = .noContent →
        (handleDeleteSource c8State "s1" true).2.sources =
          DeleteSource c8State.sources "s1") :=
  delete_source_leaves_index_untouched c8State "s1" true

/-! ## Concrete witnesses for the hypothesised theorems -/

/-- A concrete source with non-empty content. -/
def wSource : Source :=
  { id := "src1", notebookID := "nb1", name := "a.txt", type := "text",
    url := "", content := "alpha" }

/-- A concrete existing note of type "summary". -/
def wNoteSummary : Note :=
  { notebookID := "nb1", title := "摘要", content := "old", type := "summary",
    sourceIDs := [], metadata := { length := "", format := "" } }

def wReq (t : String) : TransformationRequest :=
  { type := t, sourceIDs := [], length := "short", format := "md" }

/-- Base oracle environment: one source, successful persistence. -/
def wEnv (gi : Nat → Except String String) (notes : List Note)
    (gt : Except String String) (ps : String → List Slide) : TransformEnv :=
  { listNotes := .ok notes, listSources := .ok [wSource], genText := gt,
    genImage := gi, parseSlides := ps, createNote := .ok (),
    createSource := .ok () }

theorem duplicate_type_returns_conflict_witness :
    (handleTransform ⟨false⟩ (wEnv (fun _ => .error "no") [wNoteSummary] (.ok "t") (fun _ => []))
      (wReq "summary") "nb1").result =
        .conflict "该笔记本已存在相同类型的笔记，不允许创建重复类型" ∧
      (handleTransform ⟨false⟩ (wEnv (fun _ => .error "no") [wNoteSummary] (.ok "t") (fun _ => []))
        (wReq "summary") "nb1").textGenCalled = false ∧
      (handleTransform ⟨false⟩ (wEnv (fun _ => .error "no") [wNoteSummary] (.ok "t") (fun _ => []))
        (wReq "summary") "nb1").imagePrompts = [] ∧
      (handleTransform ⟨false⟩ (wEnv (fun _ => .error "no") [wNoteSummary] (.ok "t") (fun _ => []))
        (wReq "summary") "nb1").createNoteAttempts = [] ∧
      (handleTransform ⟨false⟩ (wEnv (fun _ => .error "no") [wNoteSummary] (.ok "t") (fun _ => []))
        (wReq "summary") "nb1").createSourceAttempts = [] :=
  duplicate_type_returns_conflict ⟨false⟩ _ (wReq "summary") "nb1" [wNoteSummary]
    wNoteSummary rfl rfl (by decide) rfl

theorem primary_generation_failure_aborts_witness :
    (handleTransform ⟨true⟩ (wEnv (fun _ => .error "no") [] (.error "boom") (fun _ => []))
      (wReq "summary") "nb1").result = .serverError ("Generation failed: " ++ "boom") ∧
      (handleTransform ⟨true⟩ (wEnv (fun _ => .error "no") [] (.error "boom") (fun _ => []))
        (wReq "summary") "nb1").textGenCalled = true ∧
      (handleTransform ⟨true⟩ (wEnv (fun _ => .error "no") [] (.error "boom") (fun _ => []))
        (wReq "summary") "nb1").imagePrompts = [] ∧
      (handleTransform ⟨true⟩ (wEnv (fun _ => .error "no") [] (.error "boom") (fun _ => []))
        (wReq "summary") "nb1").createNoteAttempts = [] ∧
      (handleTransform ⟨true⟩ (wEnv (fun _ => .error "no") [] (.error "boom") (fun _ => []))
        (wReq "summary") "nb1").createSourceAttempts = [] :=
  primary_generation_failure_aborts ⟨true⟩ _ (wReq "summary") "nb1" [wSource] "boom"
    (Or.inl rfl) rfl (by decide) rfl

theorem infograph_image_failure_still_succeeds_witness :
    ∃ note,
      (handleTransform ⟨true⟩ (wEnv (fun _ => .error "image boom") [] (.ok "body") (fun _ => []))
        (wReq "infograph") "nb1").result = .ok note ∧
      (handleTransform ⟨true⟩ (wEnv (fun _ => .error "image boom") [] (.ok "body") (fun _ => []))
        (wReq "infograph") "nb1").createNoteAttempts = [note] ∧
      note.metadata.imageError = some "image boom" ∧
      note.content = "" :=
  infograph_image_failure_still_succeeds ⟨true⟩ _ (wReq "infograph") "nb1" [wSource]
    "body" "image boom" (Or.inl rfl) rfl (by decide) rfl rfl rfl rfl

theorem infograph_content_always_cleared_witness :
    ∃ note,
      (handleTransform ⟨true⟩ (wEnv (fun _ => .ok "./data/uploads/x.png") [] (.ok "body") (fun _ => []))
        (wReq "infograph") "nb1").result = .ok note ∧
      (handleTransform ⟨true⟩ (wEnv (fun _ => .ok "./data/uploads/x.png") [] (.ok "body") (fun _ => []))
        (wReq "infograph") "nb1").createNoteAttempts = [note] ∧
      note.content = "" ∧
      (∀ p, (wEnv (fun _ => .ok "./data/uploads/x.png") [] (.ok "body") (fun _ => [])).genImage 0 = .ok p →
        note.metadata.imageURL = some ("/api/files/" ++ filepathBase p) ∧
          note.metadata.imageError = none) ∧
      (∀ e, (wEnv (fun _ => .ok "./data/uploads/x.png") [] (.ok "body") (fun _ => [])).genImage 0 = .error e →
        note.metadata.imageError = some e ∧ note.metadata.imageURL = none) :=
  infograph_content_always_cleared ⟨true⟩ _ (wReq "infograph") "nb1" [wSource]
    "body" (Or.inl rfl) rfl (by decide) rfl rfl rfl

theorem ppt_slide_cap_skips_images_witness :
    ∃ note,
      (handleTransform ⟨true⟩ (wEnv (fun _ => .ok "u.png") [] (.ok "body")
          (fun _ => List.replicate 11 ⟨"c", "s"⟩)) (wReq "ppt") "nb1").result = .ok note ∧
      (handleTransform ⟨true⟩ (wEnv (fun _ => .ok "u.png") [] (.ok "body")
          (fun _ => List.replicate 11 ⟨"c", "s"⟩)) (wReq "ppt") "nb1").createNoteAttempts = [note] ∧
      (handleTransform ⟨true⟩ (wEnv (fun _ => .ok "u.png") [] (.ok "body")
          (fun _ => List.replicate 11 ⟨"c", "s"⟩)) (wReq "ppt") "nb1").imagePrompts = [] ∧
      note.metadata.imageError = some "PPT页数超过20页上限，已停止生成图片" ∧
      note.metadata.slides = none ∧
      note.content = "body" :=
  ppt_slide_cap_skips_images ⟨true⟩ _ (wReq "ppt") "nb1" [wSource] "body"
    (Or.inl rfl) rfl (by decide) rfl rfl (by decide) rfl

/-- Image oracle for the 3-slide scenario: slide 2 (index 1) fails. -/
def wGen3 : Nat → Except String String :=
  fun i => if i == 0 then .ok "u1.png" else if i == 1 then .error "fail2" else .ok "u3.png"

def wSlides3 : List Slide := [⟨"one", "sty"⟩, ⟨"two", "sty"⟩, ⟨"three", "sty"⟩]

theorem ppt_sequential_images_drop_failures_witness :
    (∃ note,
      (handleTransform ⟨true⟩ (wEnv wGen3 [] (.ok "body") (fun _ => wSlides3))
        (wReq "ppt") "nb1").result = .ok note ∧
      (handleTransform ⟨true⟩ (wEnv wGen3 [] (.ok "body") (fun _ => wSlides3))
        (wReq "ppt") "nb1").createNoteAttempts = [note] ∧
      (handleTransform ⟨true⟩ (wEnv wGen3 [] (.ok "body") (fun _ => wSlides3))
        (wReq "ppt") "nb1").imagePrompts =
        wSlides3.map (pptPrompt (wSlides3.headD ⟨"", ""⟩).style) ∧
      note.metadata.slides = some (successfulSlideURLs wGen3 3) ∧
      note.metadata.imageError = none ∧
      note.content = "body") ∧
    successfulSlideURLs wGen3 3 = ["/api/files/u1.png", "/api/files/u3.png"] :=
  ⟨by
    have h := ppt_sequential_images_drop_failures ⟨true⟩
      (wEnv wGen3 [] (.ok "body") (fun _ => wSlides3)) (wReq "ppt") "nb1" [wSource] "body"
      (Or.inl rfl) rfl (by decide) rfl rfl (by decide) rfl
    exact h,
   by decide⟩

theorem insight_creates_and_ingests_new_source_witness :
    ∃ note,
      (handleTransform ⟨true⟩ (wEnv (fun _ => .error "no") [] (.ok "report") (fun _ => []))
        (wReq "insight") "nb1").result = .ok note ∧
      note.content = "report" ∧
      (handleTransform ⟨true⟩ (wEnv (fun _ => .error "no") [] (.ok "report") (fun _ => []))
        (wReq "insight") "nb1").createSourceAttempts =
        [{ id := "", notebookID := "nb1", name := "洞察报告", type := "insight",
           url := "", content := "report" }] ∧
      (handleTransform ⟨true⟩ (wEnv (fun _ => .error "no") [] (.ok "report") (fun _ => []))
        (wReq "insight") "nb1").insightIngestAttempts = [("nb1", "洞察报告", "report")] ∧
      (handleTransform ⟨true⟩ (wEnv (fun _ => .error "no") [] (.ok "report") (fun _ => []))
        (wReq "insight") "nb1").createSourceAttempts.length = 1 :=
  insight_creates_and_ingests_new_source ⟨true⟩ _ (wReq "insight") "nb1" [wSource]
    "report" (Or.inl rfl) rfl (by decide) rfl rfl rfl rfl

/-- Concrete load environments: successful listing; ingestion succeeding
resp. failing on every document. -/
def wLoadEnv : LoadEnv := { listSources := .ok [wSource], ingestText := fun _ => .ok 1 }

def wLoadEnvFail : LoadEnv :=
  { listSources := .ok [wSource], ingestText := fun _ => .error "ingest boom" }

def stNone : String → Bool := fun _ => false

def stAll : String → Bool := fun _ => true

theorem index_load_lazy_exactly_once_witness :
    ((loadNotebookVectorIndex wLoadEnv stNone "nb1").ret = .ok () ∧
      (loadNotebookVectorIndex wLoadEnv stNone "nb1").listedSources = true ∧
      (loadNotebookVectorIndex wLoadEnv stNone "nb1").loaded "nb1" = true ∧
      (loadNotebookVectorIndex wLoadEnv stNone "nb1").ingestCalls.map Prod.fst =
        (([wSource]).filter (fun s => s.content ≠ "")).map (fun s => s.name)) ∧
    ((loadNotebookVectorIndex wLoadEnv stAll "nb1").ret = .ok () ∧
      (loadNotebookVectorIndex wLoadEnv stAll "nb1").listedSources = false ∧
      (loadNotebookVectorIndex wLoadEnv stAll "nb1").ingestCalls = [] ∧
      (loadNotebookVectorIndex wLoadEnv stAll "nb1").loaded = stAll) ∧
    countSweeps [wLoadEnv, wLoadEnv, wLoadEnv] stNone "nb1" ≤ 1 :=
  ⟨index_load_lazy_exactly_once.1 wLoadEnv stNone "nb1" [wSource] rfl rfl,
   index_load_lazy_exactly_once.2.1 wLoadEnv stAll "nb1" rfl,
   index_load_lazy_exactly_once.2.2 [wLoadEnv, wLoadEnv, wLoadEnv] stNone "nb1"⟩

theorem ingest_failure_not_surfaced_witness :
    (loadNotebookVectorIndex wLoadEnvFail stNone "nb1").ret = .ok () ∧
      (loadNotebookVectorIndex wLoadEnvFail stNone "nb1").loaded "nb1" = true ∧
      (loadNotebookVectorIndex wLoadEnvFail stNone "nb1").ingestCalls.map Prod.fst =
        (([wSource]).filter (fun s => s.content ≠ "")).map (fun s => s.name) ∧
      (loadNotebookVectorIndex wLoadEnvFail stNone "nb1").ret =
        (loadNotebookVectorIndex wLoadEnv stNone "nb1").ret ∧
      (loadNotebookVectorIndex wLoadEnvFail stNone "nb1").loaded =
        (loadNotebookVectorIndex wLoadEnv stNone "nb1").loaded ∧
      (loadNotebookVectorIndex wLoadEnvFail stNone "nb1").ingestCalls.map Prod.fst =
        (loadNotebookVectorIndex wLoadEnv stNone "nb1").ingestCalls.map Prod.fst :=
  ingest_failure_not_surfaced wLoadEnvFail wLoadEnv stNone "nb1" [wSource] rfl rfl rfl

end Notex
